import Mathlib

/-!
Verification development for the trow registry prototype (`src/routes.rs`).

The routes operate directly on the filesystem through paths built with
`format!`.  We embed the filesystem as a finite map from (normalized)
path strings to file contents, file contents as strings (the routes'
blob and manifest payloads; hashing goes through UTF-8 encoding,
mirroring `str::as_bytes`), SHA-256 as a pure function on byte lists
(the `crypto` crate's `Sha256` used by `gen_digest`), and JSON parsing
as a fueled recursive-descent parser standing for `serde_json`.
-/

namespace Trow

/-! ### 32-bit arithmetic helpers and SHA-256 (`crypto::sha2::Sha256`) -/

def w32 : Nat := 4294967296

def rotr (x n : Nat) : Nat :=
  ((x >>> n) ||| (x <<< (32 - n))) % w32

/-- The 64 SHA-256 round constants (FIPS 180-4, written in decimal). -/
def sha256K : List Nat :=
  [1116352408, 1899447441, 3049323471, 3921009573, 961987163,
   1508970993, 2453635748, 2870763221, 3624381080, 310598401,
   607225278, 1426881987, 1925078388, 2162078206, 2614888103,
   3248222580, 3835390401, 4022224774, 264347078, 604807628,
   770255983, 1249150122, 1555081692, 1996064986, 2554220882,
   2821834349, 2952996808, 3210313671, 3336571891, 3584528711,
   113926993, 338241895, 666307205, 773529912, 1294757372,
   1396182291, 1695183700, 1986661051, 2177026350, 2456956037,
   2730485921, 2820302411, 3259730800, 3345764771, 3516065817,
   3600352804, 4094571909, 275423344, 430227734, 506948616,
   659060556, 883997877, 958139571, 1322822218, 1537002063,
   1747873779, 1955562222, 2024104815, 2227730452, 2361852424,
   2428436474, 2756734187, 3204031479, 3329325298]

/-- Initial SHA-256 hash state (FIPS 180-4, written in decimal). -/
def sha256Init : List Nat :=
  [1779033703, 3144134277, 1013904242, 2773480762,
   1359893119, 2600822924, 528734635, 1541459225]

/-- Extend the 16-word message schedule by `k` further words.  The word
list is kept reversed (most recent word first) so each step reads the
words it needs near the head. -/
def extW (w : List Nat) : Nat → List Nat
  | 0 => w
  | k + 1 =>
    let g := fun i => w.getD (i - 1) 0
    let s0 := (rotr (g 15) 7) ^^^ (rotr (g 15) 18) ^^^ ((g 15) >>> 3)
    let s1 := (rotr (g 2) 17) ^^^ (rotr (g 2) 19) ^^^ ((g 2) >>> 10)
    extW (((g 16 + s0 + g 7 + s1) % w32) :: w) k

/-- One round of the SHA-256 compression loop on the 8-word working state. -/
def sha256Round (st : List Nat) (kw : Nat × Nat) : List Nat :=
  match st with
  | [a, b, c, d, e, f, g, h] =>
    let s1 := rotr e 6 ^^^ rotr e 11 ^^^ rotr e 25
    let ch := (e &&& f) ^^^ ((4294967295 ^^^ e) &&& g)
    let t1 := (h + s1 + ch + kw.1 + kw.2) % w32
    let s0 := rotr a 2 ^^^ rotr a 13 ^^^ rotr a 22
    let mj := (a &&& b) ^^^ (a &&& c) ^^^ (b &&& c)
    let t2 := (s0 + mj) % w32
    [(t1 + t2) % w32, a, b, c, (d + t1) % w32, e, f, g]
  | st => st

/-- Compress one 16-word block into the hash state. -/
def sha256Compress (h : List Nat) (block : List Nat) : List Nat :=
  let w := (extW block.reverse 48).reverse
  let fin := (sha256K.zip w).foldl sha256Round h
  (h.zip fin).map (fun p => (p.1 + p.2) % w32)

/-- SHA-256 padding: append 0x80, zeros, and the 64-bit big-endian bit length. -/
def sha256Pad (msg : List Nat) : List Nat :=
  let len := msg.length
  let padZeros := (119 - len % 64) % 64
  msg ++ 128 :: List.replicate padZeros 0 ++
    (List.range 8).map (fun i => ((len * 8) >>> ((7 - i) * 8)) % 256)

/-- Group big-endian bytes into 32-bit words. -/
def bytesToWords : List Nat → List Nat
  | b0 :: b1 :: b2 :: b3 :: rest =>
    (((b0 * 256 + b1) * 256 + b2) * 256 + b3) :: bytesToWords rest
  | _ => []

/-- Split a byte list into 64-byte blocks (fuelled so the recursion is
structural; the fuel is the list length, an upper bound on the block count). -/
def toBlocksF : Nat → List Nat → List (List Nat)
  | 0, _ => []
  | _, [] => []
  | fuel + 1, l => l.take 64 :: toBlocksF fuel (l.drop 64)

def toBlocks (l : List Nat) : List (List Nat) :=
  toBlocksF l.length l

/-- SHA-256 of a byte list, as eight 32-bit words. -/
def sha256 (msg : List Nat) : List Nat :=
  ((toBlocks (sha256Pad msg)).map bytesToWords).foldl sha256Compress sha256Init

def hexDigit (n : Nat) : Char :=
  if n < 10 then Char.ofNat (48 + n) else Char.ofNat (87 + n)

def wordHex (w : Nat) : List Char :=
  (List.range 8).map (fun i => hexDigit ((w >>> ((7 - i) * 4)) % 16))

/-- Lowercase hex of a SHA-256 digest (`Sha256::result_str`). -/
def sha256hex (msg : List Nat) : String :=
  String.mk (((sha256 msg).map wordHex).flatten)

/-- UTF-8 encoding of one character. -/
def utf8EncodeChar (c : Char) : List Nat :=
  let n := c.toNat
  if n < 128 then [n]
  else if n < 2048 then [192 + n / 64, 128 + n % 64]
  else if n < 65536 then [224 + n / 4096, 128 + (n / 64) % 64, 128 + n % 64]
  else [240 + n / 262144, 128 + (n / 4096) % 64, 128 + (n / 64) % 64, 128 + n % 64]

/-- UTF-8 encoding of a string (`str::as_bytes`). -/
def utf8Encode (s : String) : List Nat :=
  (s.data.map utf8EncodeChar).flatten

/-- `gen_digest` from `src/routes.rs:545`: `"sha256:" ++ hex(sha256 bytes)`. -/
def gen_digest (bytes : List Nat) : String :=
  "sha256:" ++ sha256hex bytes

/-! ### Path normalization and the filesystem model

The routes build relative paths with `format!` and hand them to the OS.
The OS collapses repeated and trailing `/`, skips `.` segments and
resolves `..` segments; the filesystem itself is a map from resolved
paths to file contents. -/

/-- Split a character list on `/`. -/
def splitSlash : List Char → List (List Char)
  | [] => [[]]
  | c :: cs =>
    if c == '/' then [] :: splitSlash cs
    else
      match splitSlash cs with
      | [] => [[c]]
      | s :: ss => (c :: s) :: ss

/-- Resolve path segments: drop empty and `.` segments, let `..` pop the
previous segment.  `acc` holds the already-resolved segments reversed. -/
def resolveSegs (acc : List (List Char)) : List (List Char) → List (List Char)
  | [] => acc.reverse
  | s :: rest =>
    if s == ([] : List Char) || s == ['.'] then resolveSegs acc rest
    else if s == ['.', '.'] then resolveSegs acc.tail rest
    else resolveSegs (s :: acc) rest

/-- Re-join path segments with `/`. -/
def joinSegs : List (List Char) → List Char
  | [] => []
  | [s] => s
  | s :: rest => s ++ '/' :: joinSegs rest

/-- OS-style resolution of a relative path string. -/
def normPath (p : String) : String :=
  String.mk (joinSegs (resolveSegs [] (splitSlash p.data)))

/-- The filesystem: resolved path ↦ file contents. -/
structure FS where
  files : List (String × String)
deriving DecidableEq

def FS.read (fs : FS) (p : String) : Option String :=
  (fs.files.find? (fun kv => kv.1 == normPath p)).map (fun kv => kv.2)

/-- `Path::exists`. -/
def FS.pathExists (fs : FS) (p : String) : Bool :=
  (fs.read p).isSome

/-- Create or replace the file at `p` (`fs::copy` target, `File::create`). -/
def FS.write (fs : FS) (p c : String) : FS :=
  ⟨(normPath p, c) :: fs.files.filter (fun kv => kv.1 != normPath p)⟩

/-- Delete the file at `p` (`fs::remove_file`). -/
def FS.remove (fs : FS) (p : String) : FS :=
  ⟨fs.files.filter (fun kv => kv.1 != normPath p)⟩

/-! ### JSON values and a parser standing for `serde_json` -/

inductive Json
  | null
  | jbool (b : Bool)
  | num (n : Int)
  | str (s : String)
  | arr (elems : List Json)
  | obj (fields : List (String × Json))

def lbrace : Char := Char.ofNat 123

def rbrace : Char := Char.ofNat 125

/-- Skip JSON whitespace. -/
def skipWs : List Char → List Char
  | [] => []
  | c :: cs =>
    if c == ' ' || c == '\n' || c == '\r' || c == '\t' then skipWs cs
    else c :: cs

/-- Characters of a string literal up to the closing quote (escape-free
JSON subset; the manifests exercised here use none). -/
def strChars : List Char → Option (List Char × List Char)
  | [] => none
  | c :: cs =>
    if c == '"' then some ([], cs)
    else (strChars cs).map (fun p => (c :: p.1, p.2))

/-- Leading decimal digits. -/
def digits : List Char → List Char × List Char
  | [] => ([], [])
  | c :: cs =>
    if c.isDigit then
      match digits cs with
      | (d, r) => (c :: d, r)
    else ([], c :: cs)

def natOfDigits (ds : List Char) : Nat :=
  ds.foldl (fun a c => a * 10 + (c.toNat - 48)) 0

/-- Match the expected literal characters. -/
def dropLit : List Char → List Char → Option (List Char)
  | [], rest => some rest
  | _ :: _, [] => none
  | c :: cs, d :: ds => if c == d then dropLit cs ds else none

mutual

/-- Parse one JSON value.  Fuel makes the recursion structural. -/
def parseVal : Nat → List Char → Option (Json × List Char)
  | 0, _ => none
  | fuel + 1, cs =>
    match skipWs cs with
    | [] => none
    | c :: rest =>
      if c == '"' then
        (strChars rest).map (fun p => (Json.str (String.mk p.1), p.2))
      else if c == lbrace then parseMembers fuel rest
      else if c == '[' then parseElems fuel rest
      else if c == 't' then (dropLit ['r', 'u', 'e'] rest).map (fun r => (Json.jbool true, r))
      else if c == 'f' then (dropLit ['a', 'l', 's', 'e'] rest).map (fun r => (Json.jbool false, r))
      else if c == 'n' then (dropLit ['u', 'l', 'l'] rest).map (fun r => (Json.null, r))
      else if c == '-' then
        match digits rest with
        | ([], _) => none
        | (ds, r) => some (Json.num (-(natOfDigits ds : Int)), r)
      else if c.isDigit then
        match digits (c :: rest) with
        | (ds, r) => some (Json.num (natOfDigits ds), r)
      else none

/-- Parse array elements after `[`. -/
def parseElems : Nat → List Char → Option (Json × List Char)
  | 0, _ => none
  | fuel + 1, cs =>
    match skipWs cs with
    | [] => none
    | c :: r =>
      if c == ']' then some (Json.arr [], r)
      else
        match parseVal fuel (c :: r) with
        | none => none
        | some (j, rest) =>
          match skipWs rest with
          | ',' :: r2 =>
            match parseElems fuel r2 with
            | some (Json.arr js, r3) => some (Json.arr (j :: js), r3)
            | _ => none
          | c2 :: r2 => if c2 == ']' then some (Json.arr [j], r2) else none
          | [] => none

/-- Parse object members after the opening brace. -/
def parseMembers : Nat → List Char → Option (Json × List Char)
  | 0, _ => none
  | fuel + 1, cs =>
    match skipWs cs with
    | [] => none
    | c :: r =>
      if c == rbrace then some (Json.obj [], r)
      else if c == '"' then
        match strChars r with
        | none => none
        | some (k, r1) =>
          match skipWs r1 with
          | ':' :: r2 =>
            match parseVal fuel r2 with
            | none => none
            | some (v, r3) =>
              match skipWs r3 with
              | ',' :: r4 =>
                match parseMembers fuel r4 with
                | some (Json.obj fs, r5) => some (Json.obj ((String.mk k, v) :: fs), r5)
                | _ => none
              | c2 :: r4 =>
                if c2 == rbrace then some (Json.obj [(String.mk k, v)], r4) else none
              | [] => none
          | _ => none
      else none

end

/-- `serde_json::from_str`: parse a complete JSON document. -/
def jsonParse (s : String) : Option Json :=
  match parseVal (2 * s.data.length + 2) s.data with
  | some (j, rest) => if (skipWs rest).isEmpty then some j else none
  | none => none

/-! ### Manifests and wire types -/

/-- Modelled from the spec: the `manifest::Manifest` type of the absent
`lib/server/src/manifest.rs` module is a "parsed structure exposing the
list of referenced blob digests (layer digests plus the config digest
for v2 schema 2)"; `get_asset_digests` returns that list. -/
structure Manifest where
  assetDigests : List String
deriving DecidableEq

def jLookup (fields : List (String × Json)) (k : String) : Option Json :=
  (fields.find? (fun kv => kv.1 == k)).map (fun kv => kv.2)

/-- The `"digest"` field of a descriptor object. -/
def digestOf : Json → Option String
  | Json.obj fields =>
    match jLookup fields "digest" with
    | some (Json.str d) => some d
    | _ => none
  | _ => none

/-- Modelled from the spec: `manifest::Manifest::from_json` (module
absent from `src/`) recognizes an image manifest (an object carrying a
`config` descriptor and a `layers` descriptor array) or a manifest
index / manifest list (an object carrying a `manifests` descriptor
array); anything else is an unknown schema and fails. -/
def manifestFromJson : Json → Option Manifest
  | Json.obj fields =>
    match jLookup fields "manifests" with
    | some (Json.arr ms) => (ms.mapM digestOf).map (fun ds => ⟨ds⟩)
    | _ =>
      match jLookup fields "layers", jLookup fields "config" with
      | some (Json.arr ls), some cfg =>
        match digestOf cfg, ls.mapM digestOf with
        | some cd, some lds => some ⟨cd :: lds⟩
        | _, _ => none
      | _, _ => none
  | _ => none

/-- Modelled from the spec: the wire error codes of
`response::errors::Error` (the `lib/response` crate is absent from
`src/`); the `src/routes.rs` code constructs `InternalError`,
`BlobUnknown`, `ManifestInvalid` and `Unsupported`. -/
inductive Error
  | BlobUnknown
  | DigestInvalid
  | ManifestInvalid
  | ManifestUnknown
  | NameInvalid
  | NameUnknown
  | SizeInvalid
  | Unsupported
  | Unauthorized
  | Denied
  | InternalError
deriving DecidableEq

/-- `response::accepted_upload::AcceptedUpload`, built by
`create_accepted_upload(uuid, digest, repo_name)`. -/
structure AcceptedUpload where
  uuid : String
  digest : String
  repo_name : String
deriving DecidableEq

/-- `response::upload_info::UploadInfo`, built by
`create_upload_info(uuid, repo_name, range)`. -/
structure UploadInfo where
  uuid : String
  repo_name : String
  range : Nat × Nat
deriving DecidableEq

/-- `response::manifest_upload::ManifestUpload`. -/
structure ManifestUpload where
  digest : String
  location : String
deriving DecidableEq

/-- Rocket's request, as far as the guard under test can see it. -/
structure Request where
  uri : String
  headers : List (String × String)

/-- `rocket::Outcome` of a request guard. -/
inductive RocketOutcome (α : Type)
  | success (a : α)
  | failure
  | forward
deriving DecidableEq

/-- `struct AuthorisedUser(String)` from `src/routes.rs:65`. -/
structure AuthorisedUser where
  val : String
deriving DecidableEq

/-- `impl FromRequest for AuthorisedUser` (`src/routes.rs:66`):
unconditionally `Outcome::Success(AuthorisedUser("test"))`. -/
def AuthorisedUser.from_request (_req : Request) : RocketOutcome AuthorisedUser :=
  RocketOutcome.success ⟨"test"⟩

/-! ### Route handlers from `src/routes.rs` -/

/-- In-memory server state seen by `patch_blob`: the filesystem plus
the backend's session table (which uuids have an open upload). -/
structure ServerState where
  fs : FS
  uploads : List String
deriving DecidableEq

/-- `get_manifest` (`src/routes.rs:111`): read
`data/manifests/<onename>/<reference>` and deserialize a `Manifest`
from it, mapping every failure to `None`. -/
def get_manifest (fs : FS) (onename reference : String) : Option Manifest :=
  match fs.read ("data/manifests/" ++ onename ++ "/" ++ reference) with
  | some content => (jsonParse content).bind manifestFromJson
  | none => none

/-- `get_blob` (`src/routes.rs:194`): serve the file at
`data/layers/<name_repo>/<digest>` if it exists. -/
def get_blob (fs : FS) (name_repo digest : String) (_auth_user : AuthorisedUser) :
    Option String :=
  fs.read ("data/layers/" ++ name_repo ++ "/" ++ digest)

/-- `put_blob` (`src/routes.rs:258`): copy `data/scratch/<uuid>` to
`data/layers/<repo_name>/<digest>` (creating the directory as needed),
delete the scratch file, and answer `AcceptedUpload`.  A failing copy
(scratch absent) is `InternalError`.  No hash is ever computed. -/
def put_blob (fs : FS) (repo_name uuid digest : String) :
    Except Error AcceptedUpload × FS :=
  let digest_path := "data/layers/" ++ repo_name ++ "/" ++ digest
  let scratch_path := "data/scratch/" ++ uuid
  match fs.read scratch_path with
  | none => (Except.error Error.InternalError, fs)
  | some content =>
    let fs1 := (fs.write digest_path content).remove scratch_path
    (Except.ok ⟨uuid, digest, repo_name⟩, fs1)

/-- `patch_blob` (`src/routes.rs:339`).  Modelled from the spec where
the backend is absent from `src/`: `ClientInterface::
get_write_sink_for_upload` yields a sink exactly when the uuid has an
open session, and the sink appends to the scratch file
`data/scratch/<uuid>`.  The handler streams the whole chunk into the
sink and answers `UploadInfo` with range `(0, chunk_len as u32)`; with
no sink it streams the chunk to `/dev/null` (no filesystem effect) and
answers `BlobUnknown`.  No offset or Content-Range is consulted. -/
def patch_blob (st : ServerState) (repo_name uuid : String) (chunk : String) :
    Except Error UploadInfo × ServerState :=
  if st.uploads.contains uuid then
    let scratch_path := "data/scratch/" ++ uuid
    let grown := ((st.fs.read scratch_path).getD "") ++ chunk
    (Except.ok ⟨uuid, repo_name, (0, (utf8Encode chunk).length % w32)⟩,
      { st with fs := st.fs.write scratch_path grown })
  else
    (Except.error Error.BlobUnknown, st)

/-- `put_image_manifest` (`src/routes.rs:465`).  `none` is the panic of
the `unwrap` calls on the body/JSON parse; otherwise the handler
rejects an unrecognized schema with `ManifestInvalid`, rejects a
manifest whose referenced digest is missing from
`data/layers/<repo_name>/` with `ManifestInvalid`, and else stores the
raw bytes at `data/manifests/<repo_name>//<reference>` and answers the
manifest's own digest plus a hard-coded localhost location. -/
def put_image_manifest (fs : FS) (repo_name reference : String) (chunk : String) :
    Option (Except Error ManifestUpload × FS) :=
  match jsonParse chunk with
  | none => none
  | some j =>
    match manifestFromJson j with
    | none => some (Except.error Error.ManifestInvalid, fs)
    | some m =>
      if m.assetDigests.all
          (fun d => fs.pathExists ("data/layers/" ++ repo_name ++ "/" ++ d)) then
        let manifest_directory := "data/manifests/" ++ repo_name ++ "/"
        let manifest_path := manifest_directory ++ "/" ++ reference
        let digest := gen_digest (utf8Encode chunk)
        some (Except.ok
          ⟨digest, "http://localhost:5000/v2/" ++ repo_name ++ "/manifests/" ++ digest⟩,
          fs.write manifest_path chunk)
      else some (Except.error Error.ManifestInvalid, fs)

/-- Route `delete_image_manifest` (`src/routes.rs:557`): always `Unsupported`. -/
def delete_image_manifest (_name _repo _reference : String) : Except Error Unit :=
  Except.error Error.Unsupported

/-! ### Concrete inputs used by the claim theorems -/

/-- A syntactically valid image manifest referencing a digest that no
blob provides. -/
def missingBlobManifest : String :=
  "\x7b\"config\":\x7b\"digest\":\"sha256:aaa\"\x7d,\"layers\":[]\x7d"

/-- A manifest index with no children: accepted with no blob lookups. -/
def emptyIndexManifest : String :=
  "\x7b\"manifests\":[]\x7d"

/-- A well-formed but incorrect digest claim (64 zero nibbles). -/
def zeroDigest : String :=
  "sha256:0000000000000000000000000000000000000000000000000000000000000000"

/-! ### Filesystem lemmas -/

theorem find?_filter_ne (l : List (String × String)) (k : String) :
    (l.filter (fun kv => kv.1 != k)).find? (fun kv => kv.1 == k) = none := by
  rw [List.find?_eq_none]
  intro x hx
  have hmem := List.of_mem_filter hx
  simp only [bne_iff_ne] at hmem
  simp only [beq_iff_eq]
  exact hmem

theorem FS.read_write_eq (fs : FS) (p q c : String) (h : normPath p = normPath q) :
    (fs.write p c).read q = some c := by
  simp [FS.read, FS.write, h]

theorem FS.read_remove_eq (fs : FS) (p q : String) (h : normPath p = normPath q) :
    (fs.remove p).read q = none := by
  simp [FS.read, FS.remove, ← h, find?_filter_ne]

/-! ### Path-normalization lemmas: the OS collapses the double slash
written by `put_image_manifest` into the single slash read by
`get_manifest` -/

theorem splitSlash_ne_nil (l : List Char) : splitSlash l ≠ [] := by
  cases l with
  | nil => simp [splitSlash]
  | cons c cs =>
    unfold splitSlash
    split
    · simp
    · split <;> simp

theorem splitSlash_append (l1 l2 : List Char) :
    splitSlash (l1 ++ '/' :: l2) = splitSlash l1 ++ splitSlash l2 := by
  induction l1 with
  | nil => simp [splitSlash]
  | cons c cs ih =>
    by_cases hc : c = '/'
    · subst hc
      simp [splitSlash, ih]
    · have hb : (c == '/') = false := by simp [hc]
      rcases hs : splitSlash cs with _ | ⟨s, ss⟩
      · exact absurd hs (splitSlash_ne_nil cs)
      · simp [splitSlash, hb, ih, hs]

theorem resolveSegs_append_empty (A : List (List Char)) (acc B : List (List Char)) :
    resolveSegs acc (A ++ ([] : List Char) :: B) = resolveSegs acc (A ++ B) := by
  induction A generalizing acc with
  | nil => simp [resolveSegs]
  | cons s t ih =>
    simp only [List.cons_append, resolveSegs]
    split_ifs <;> apply ih

theorem normChars_dslash (l1 l2 : List Char) :
    joinSegs (resolveSegs [] (splitSlash (l1 ++ '/' :: '/' :: l2))) =
    joinSegs (resolveSegs [] (splitSlash (l1 ++ '/' :: l2))) := by
  have h1 : splitSlash (l1 ++ '/' :: '/' :: l2) =
      splitSlash l1 ++ ([] : List Char) :: splitSlash l2 := by
    have h := splitSlash_append l1 ('/' :: l2)
    rw [h]
    simp [splitSlash]
  rw [h1, splitSlash_append l1 l2, resolveSegs_append_empty]

theorem normPath_dslash (a b : String) :
    normPath (a ++ "/" ++ "/" ++ b) = normPath (a ++ "/" ++ b) := by
  have hd1 : (a ++ "/" ++ "/" ++ b).data = a.data ++ '/' :: '/' :: b.data := by
    simp [String.data_append]
  have hd2 : (a ++ "/" ++ b).data = a.data ++ '/' :: b.data := by
    simp [String.data_append]
  unfold normPath
  rw [hd1, hd2, normChars_dslash]

/-! ### Claim theorems -/

/-- C1: `put_blob` (finalize) was claimed to either commit a blob whose
bytes hash to the claimed digest or return `DigestInvalid` committing
nothing.  The code computes no hash at all: with scratch contents
`"hello"` and an all-zero claimed digest it commits `"hello"` under the
wrong digest, deletes the scratch file and answers success, although
`sha256("hello")` is not the claimed digest. -/
theorem put_blob_commits_without_digest_check :
    put_blob (FS.mk [("data/scratch/u1", "hello")]) "x" "u1" zeroDigest =
      (Except.ok ⟨"u1", zeroDigest, "x"⟩,
       FS.mk [("data/layers/x/" ++ zeroDigest, "hello")])
    ∧ gen_digest (utf8Encode "hello") ≠ zeroDigest :=
  ⟨rfl, by decide⟩

/-- C2 (counterexample): a manifest referencing a digest with no blob is
rejected with `ManifestInvalid`, not with the claimed `BlobUnknown`. -/
theorem put_manifest_missing_blob_not_blob_unknown :
    put_image_manifest (FS.mk []) "x" "v1" missingBlobManifest =
      some (Except.error Error.ManifestInvalid, FS.mk [])
    ∧ Error.ManifestInvalid ≠ Error.BlobUnknown :=
  ⟨rfl, by decide⟩

/-- C2 (amended): whenever a parsed manifest references a digest that is
not a blob of the repository, `put_image_manifest` returns
`ManifestInvalid` and leaves the filesystem unchanged (no manifest file
is written). -/
theorem put_image_manifest_missing_blob_rejected
    (fs : FS) (repo ref chunk : String) (j : Json) (m : Manifest)
    (hj : jsonParse chunk = some j) (hm : manifestFromJson j = some m)
    (hmiss : m.assetDigests.all
      (fun d => fs.pathExists ("data/layers/" ++ repo ++ "/" ++ d)) = false) :
    put_image_manifest fs repo ref chunk =
      some (Except.error Error.ManifestInvalid, fs) := by
  simp [put_image_manifest, hj, hm, hmiss]

/-- C2 (witness): the amended theorem applied to an empty store and a
manifest referencing `sha256:aaa`. -/
theorem put_image_manifest_missing_blob_rejected_witness :
    jsonParse missingBlobManifest =
      some (Json.obj [("config", Json.obj [("digest", Json.str "sha256:aaa")]),
                      ("layers", Json.arr [])])
    ∧ manifestFromJson (Json.obj [("config", Json.obj [("digest", Json.str "sha256:aaa")]),
                      ("layers", Json.arr [])]) = some ⟨["sha256:aaa"]⟩
    ∧ (Manifest.mk ["sha256:aaa"]).assetDigests.all
        (fun d => (FS.mk []).pathExists ("data/layers/" ++ "x" ++ "/" ++ d)) = false
    ∧ put_image_manifest (FS.mk []) "x" "v1" missingBlobManifest =
        some (Except.error Error.ManifestInvalid, FS.mk []) :=
  ⟨rfl, rfl, rfl,
    put_image_manifest_missing_blob_rejected (FS.mk []) "x" "v1" missingBlobManifest
      _ _ rfl rfl rfl⟩

/-- C3: repository names were claimed to be validated (empty, `.`, `..`
segments and regex failures rejected with `NameInvalid` before any
storage action).  No route validates anything: `get_blob` with the name
`"../.."` performs the read with the raw name spliced into the path,
escaping the data directory entirely and serving a file at the
filesystem root. -/
theorem get_blob_reads_with_traversal_name :
    get_blob (FS.mk [("secret", "topsecret")]) "../.." "secret" ⟨"test"⟩ =
      some "topsecret" := rfl

/-- C4: `put_image_manifest` was claimed to return `ManifestInvalid` on
bodies that are not valid JSON.  The code calls `unwrap` on the
`serde_json` result, so a non-JSON body panics (modelled as `none`); a
body that is JSON but an unrecognized schema does get
`ManifestInvalid`. -/
theorem put_image_manifest_panics_on_invalid_json :
    put_image_manifest (FS.mk []) "x" "v1" "notjson" = none
    ∧ put_image_manifest (FS.mk []) "x" "v1" "\x7b\x7d" =
        some (Except.error Error.ManifestInvalid, FS.mk []) :=
  ⟨rfl, rfl⟩

/-- C5: a successful patch was claimed to return the session's total
offset (previous bytes plus chunk).  With 5 bytes already in the
scratch file, a 3-byte patch appends (scratch holds 8 bytes) but the
route answers range `(0, 3)` — the length of this chunk only. -/
theorem patch_blob_reports_chunk_length_not_offset :
    patch_blob ⟨FS.mk [("data/scratch/u1", "hello")], ["u1"]⟩ "x" "u1" "abc" =
      (Except.ok ⟨"u1", "x", (0, 3)⟩,
       ⟨FS.mk [("data/scratch/u1", "helloabc")], ["u1"]⟩) := rfl

/-- C6: an out-of-order patch was claimed to return `Conflict` (416)
leaving the session unchanged.  The route never consults any
Content-Range: every patch on a known session succeeds and appends,
whatever offset the client supplies. -/
theorem patch_blob_appends_unconditionally
    (st : ServerState) (repo uuid chunk : String)
    (h : st.uploads.contains uuid = true) :
    patch_blob st repo uuid chunk =
      (Except.ok ⟨uuid, repo, (0, (utf8Encode chunk).length % w32)⟩,
       ⟨st.fs.write ("data/scratch/" ++ uuid)
          (((st.fs.read ("data/scratch/" ++ uuid)).getD "") ++ chunk),
        st.uploads⟩) := by
  have h2 : uuid ∈ st.uploads := by simpa using h
  simp [patch_blob, h2]

/-- C6 (witness): a session at offset 5 accepts a 4-byte patch that the
spec would reject as out of order, growing the scratch file to 9 bytes. -/
theorem patch_blob_appends_unconditionally_witness :
    (["u2"] : List String).contains "u2" = true
    ∧ patch_blob ⟨FS.mk [("data/scratch/u2", "hello")], ["u2"]⟩ "x" "u2" "wrld" =
        (Except.ok ⟨"u2", "x", (0, 4)⟩,
         ⟨FS.mk [("data/scratch/u2", "hellowrld")], ["u2"]⟩) :=
  ⟨rfl,
    (patch_blob_appends_unconditionally
      ⟨FS.mk [("data/scratch/u2", "hello")], ["u2"]⟩ "x" "u2" "wrld" rfl).trans rfl⟩

/-- C7 (counterexample): a manifest put under tag `v1` is stored at
`data/manifests/x/v1` only; `get_manifest` at the manifest's own digest
`dig(M)` finds nothing. -/
theorem get_manifest_by_digest_after_put_is_none :
    put_image_manifest (FS.mk []) "x" "v1" emptyIndexManifest =
      some (Except.ok
        ⟨gen_digest (utf8Encode emptyIndexManifest),
         "http://localhost:5000/v2/x/manifests/" ++ gen_digest (utf8Encode emptyIndexManifest)⟩,
        FS.mk [("data/manifests/x/v1", emptyIndexManifest)])
    ∧ get_manifest (FS.mk [("data/manifests/x/v1", emptyIndexManifest)]) "x"
        (gen_digest (utf8Encode emptyIndexManifest)) = none :=
  ⟨rfl, rfl⟩

/-- C7 (amended): an accepted manifest is stored (raw bytes, exactly)
under the reference given in the URL, and is subsequently addressable
by that reference: `get_manifest` re-parses exactly the bytes that were
put.  (It is not addressable by its own digest; see the
counterexample.) -/
theorem put_image_manifest_addressable_by_reference
    (fs : FS) (repo ref chunk : String) (j : Json) (m : Manifest)
    (hj : jsonParse chunk = some j) (hm : manifestFromJson j = some m)
    (hall : m.assetDigests.all
      (fun d => fs.pathExists ("data/layers/" ++ repo ++ "/" ++ d)) = true) :
    put_image_manifest fs repo ref chunk =
      some (Except.ok
        ⟨gen_digest (utf8Encode chunk),
         "http://localhost:5000/v2/" ++ repo ++ "/manifests/" ++ gen_digest (utf8Encode chunk)⟩,
        fs.write ("data/manifests/" ++ repo ++ "/" ++ "/" ++ ref) chunk)
    ∧ get_manifest (fs.write ("data/manifests/" ++ repo ++ "/" ++ "/" ++ ref) chunk)
        repo ref = some m := by
  refine ⟨by simp [put_image_manifest, hj, hm, hall], ?_⟩
  have hr : (fs.write ("data/manifests/" ++ repo ++ "/" ++ "/" ++ ref) chunk).read
      ("data/manifests/" ++ repo ++ "/" ++ ref) = some chunk :=
    FS.read_write_eq fs _ _ chunk (normPath_dslash ("data/manifests/" ++ repo) ref)
  simp [get_manifest, hr, hj, hm]

/-- C7 (witness): the amended theorem applied to an empty store, tag
`v1` and the empty manifest index. -/
theorem put_image_manifest_addressable_by_reference_witness :
    jsonParse emptyIndexManifest = some (Json.obj [("manifests", Json.arr [])])
    ∧ manifestFromJson (Json.obj [("manifests", Json.arr [])]) = some ⟨[]⟩
    ∧ (Manifest.mk []).assetDigests.all
        (fun d => (FS.mk []).pathExists ("data/layers/" ++ "x" ++ "/" ++ d)) = true
    ∧ (put_image_manifest (FS.mk []) "x" "v1" emptyIndexManifest =
        some (Except.ok
          ⟨gen_digest (utf8Encode emptyIndexManifest),
           "http://localhost:5000/v2/" ++ "x" ++ "/manifests/" ++
             gen_digest (utf8Encode emptyIndexManifest)⟩,
          (FS.mk []).write ("data/manifests/" ++ "x" ++ "/" ++ "/" ++ "v1") emptyIndexManifest)
      ∧ get_manifest ((FS.mk []).write ("data/manifests/" ++ "x" ++ "/" ++ "/" ++ "v1")
          emptyIndexManifest) "x" "v1" = some ⟨[]⟩) :=
  ⟨rfl, rfl, rfl,
    put_image_manifest_addressable_by_reference (FS.mk []) "x" "v1" emptyIndexManifest
      _ _ rfl rfl rfl⟩

/-- C8: a patch on an unknown session uuid answers `BlobUnknown` after
draining the body to `/dev/null`, with no change to any file. -/
theorem patch_blob_unknown_uuid_blob_unknown
    (st : ServerState) (repo uuid chunk : String)
    (h : st.uploads.contains uuid = false) :
    patch_blob st repo uuid chunk = (Except.error Error.BlobUnknown, st) := by
  have h2 : uuid ∉ st.uploads := by simpa using h
  simp [patch_blob, h2]

/-- C8 (witness): an unknown uuid against a store holding one blob:
error out, nothing written. -/
theorem patch_blob_unknown_uuid_blob_unknown_witness :
    (([] : List String).contains "u9" = false)
    ∧ patch_blob ⟨FS.mk [("data/layers/x/d", "b")], []⟩ "x" "u9" "chunkbody" =
        (Except.error Error.BlobUnknown, ⟨FS.mk [("data/layers/x/d", "b")], []⟩) :=
  ⟨rfl,
    patch_blob_unknown_uuid_blob_unknown
      ⟨FS.mk [("data/layers/x/d", "b")], []⟩ "x" "u9" "chunkbody" rfl⟩

/-- C9: `get_manifest` maps every failure to `None`: a stored manifest
whose contents do not parse as a recognized manifest is indistinguishable
from an absent one — both lookups answer `None`, never an internal
error. -/
theorem get_manifest_corrupt_equals_missing
    (fs : FS) (repo ref c : String)
    (hc : (jsonParse c).bind manifestFromJson = none) :
    get_manifest (fs.write ("data/manifests/" ++ repo ++ "/" ++ ref) c) repo ref = none
    ∧ get_manifest (fs.remove ("data/manifests/" ++ repo ++ "/" ++ ref)) repo ref = none := by
  constructor
  · have hr := FS.read_write_eq fs ("data/manifests/" ++ repo ++ "/" ++ ref)
      ("data/manifests/" ++ repo ++ "/" ++ ref) c rfl
    simp [get_manifest, hr, hc]
  · have hr := FS.read_remove_eq fs ("data/manifests/" ++ repo ++ "/" ++ ref)
      ("data/manifests/" ++ repo ++ "/" ++ ref) rfl
    simp [get_manifest, hr]

/-- C9 (witness): the corrupt contents `"corrupt"` stored at
`data/manifests/x/t` read back as `None`, exactly like a missing file. -/
theorem get_manifest_corrupt_equals_missing_witness :
    (jsonParse "corrupt").bind manifestFromJson = none
    ∧ (get_manifest ((FS.mk []).write ("data/manifests/" ++ "x" ++ "/" ++ "t") "corrupt")
        "x" "t" = none
      ∧ get_manifest ((FS.mk []).remove ("data/manifests/" ++ "x" ++ "/" ++ "t"))
        "x" "t" = none) :=
  ⟨rfl, get_manifest_corrupt_equals_missing (FS.mk []) "x" "t" "corrupt" rfl⟩

/-- C10: the authorization guard always succeeds with the fixed
principal `"test"`, and no modelled operation can ever answer
`Unauthorized` or `Denied`. -/
theorem authorised_user_always_test_and_no_auth_errors :
    (∀ req : Request, AuthorisedUser.from_request req = RocketOutcome.success ⟨"test"⟩)
    ∧ (∀ (fs : FS) (repo uuid digest : String),
        (put_blob fs repo uuid digest).1 ≠ Except.error Error.Unauthorized
        ∧ (put_blob fs repo uuid digest).1 ≠ Except.error Error.Denied)
    ∧ (∀ (st : ServerState) (repo uuid chunk : String),
        (patch_blob st repo uuid chunk).1 ≠ Except.error Error.Unauthorized
        ∧ (patch_blob st repo uuid chunk).1 ≠ Except.error Error.Denied)
    ∧ (∀ (fs : FS) (repo ref chunk : String) (fs2 : FS),
        put_image_manifest fs repo ref chunk ≠ some (Except.error Error.Unauthorized, fs2)
        ∧ put_image_manifest fs repo ref chunk ≠ some (Except.error Error.Denied, fs2))
    ∧ (∀ n r ref2 : String, delete_image_manifest n r ref2 = Except.error Error.Unsupported) := by
  refine ⟨fun _ => rfl, ?_, ?_, ?_, fun _ _ _ => rfl⟩
  · intro fs repo uuid digest
    rcases h : fs.read ("data/scratch/" ++ uuid) with _ | c <;>
      simp [put_blob, h]
  · intro st repo uuid chunk
    by_cases h : uuid ∈ st.uploads <;> simp [patch_blob, h]
  · intro fs repo ref chunk fs2
    rcases hj : jsonParse chunk with _ | j
    · simp [put_image_manifest, hj]
    · rcases hm : manifestFromJson j with _ | m
      · simp [put_image_manifest, hj, hm]
      · cases hall : m.assetDigests.all
          (fun d => fs.pathExists ("data/layers/" ++ repo ++ "/" ++ d)) <;>
          simp [put_image_manifest, hj, hm, hall]

end Trow
